import Mathlib

/-!
Shallow embedding of the scheduling/fetch/update core of the
PageSpeed-Insights Prometheus exporter (`main.go`), together with theorems
settling the specification claims about it.

Modelling conventions:
* JSON values decoded by `json.Decoder.Decode` into `map[string]interface{}`
  are represented by `JVal`; a Go map index on a missing key yields the nil
  interface, represented by `JVal.null`.
* A Go comma-ok type assertion `x.(map[string]interface{})` is `asObj`
  (returning `none` when the dynamic type does not match, including nil);
  a single-value assertion that would panic at run time is modelled by the
  surrounding function returning a `panicked` outcome.
* `float64` gauge values are abstracted as `Int`: the program only moves
  numbers from the response into gauges, no arithmetic is performed on them.
* The Prometheus gauge vectors (`perfScore`, `fcp`, `lcp`, `cls`, `tbt`,
  each labelled by site and strategy) are modelled together as one `Store`
  from (metric, site, strategy) to the latest written value.
* The network is an oracle `env : Nat → Attempt` giving the outcome of the
  i-th `http.Get`+decode of a fetch run: a transport error, a body that does
  not decode as a JSON object, or a decoded JSON object.
* `time.Sleep` calls are recorded (in seconds) in the result's `sleeps`
  trace; the unused API key / request-URL construction is part of the
  abstracted transport.
-/

/-- A decoded JSON value as seen through Go's `interface{}`.
`null` doubles as the nil interface produced by a missing map key. -/
inductive JVal where
  | null
  | bool (b : Bool)
  | num (v : Int)
  | str (s : String)
  | arr (xs : List JVal)
  | obj (fields : List (String × JVal))

/-- Association-list lookup (Go map keys are unique, first match suffices). -/
def jlookup : List (String × JVal) → String → Option JVal
  | [], _ => none
  | (k, v) :: rest, key => if k = key then some v else jlookup rest key

/-- Go map indexing `m[key]`: a missing key yields the nil interface. -/
def mapIndex (fields : List (String × JVal)) (key : String) : JVal :=
  (jlookup fields key).getD JVal.null

/-- Comma-ok type assertion `x.(map[string]interface{})`. -/
def asObj : JVal → Option (List (String × JVal))
  | .obj fields => some fields
  | _ => none

/-- Comma-ok type assertion `x.(float64)` (all JSON numbers decode to float64). -/
def asNum : JVal → Option Int
  | .num v => some v
  | _ => none

/-- The five gauge vectors of the exporter. -/
inductive Metric where
  | score
  | fcp
  | lcp
  | cls
  | tbt
deriving DecidableEq

/-- The metric store: latest value per (metric, site, strategy), or `none`
if that gauge was never set for those labels. -/
def Store := Metric → String → String → Option Int

/-- `gauge.With(labels).Set(v)`. -/
def Store.set (st : Store) (m : Metric) (site strategy : String) (v : Int) : Store :=
  fun m2 s2 g2 => if m2 = m ∧ s2 = site ∧ g2 = strategy then some v else st m2 s2 g2

/-- A store with no gauge value ever written. -/
def emptyStore : Store := fun _ _ _ => none

/-- The Go `target` struct. -/
structure target where
  URL : String
  Strategy : String
deriving DecidableEq

/-- Outcome of one `http.Get` + JSON decode, as supplied by the environment. -/
inductive Attempt where
  | netErr
  | decodeErr
  | body (data : List (String × JVal))

/-- Result of processing one attempt inside the retry loop. -/
inductive StepResult where
  | retry (st : Store)
  | panicked (st : Store)
  | success (st : Store)

/-- `if v, ok := j.(float64); ok { gauge.Set(v) }`. -/
def setIfNum (st : Store) (t : target) (m : Metric) (j : JVal) : Store :=
  match asNum j with
  | some v => st.set m t.URL t.Strategy v
  | none => st

/-- One audit extraction
`audits[key].(map[string]interface{})["numericValue"].(float64)`:
the inner assertion is single-valued, so a missing or non-object audit
entry panics (`none`); otherwise the metric is written when `numericValue`
is a number and skipped when not. -/
def auditStep (audits : List (String × JVal)) (key : String) (m : Metric)
    (t : target) (st : Store) : Option Store :=
  match asObj (mapIndex audits key) with
  | none => none
  | some inner => some (setIfNum st t m (mapIndex inner "numericValue"))

/-- The audits block of `fetchPSIData`: skipped entirely (success) when
`result["audits"]` is not an object, otherwise the four audit extractions
in source order, each able to panic. -/
def auditsBlock (result : List (String × JVal)) (t : target) (st1 : Store) : StepResult :=
  match asObj (mapIndex result "audits") with
  | none => .success st1
  | some audits =>
    match auditStep audits "first-contentful-paint" .fcp t st1 with
    | none => .panicked st1
    | some st2 =>
      match auditStep audits "largest-contentful-paint" .lcp t st2 with
      | none => .panicked st2
      | some st3 =>
        match auditStep audits "cumulative-layout-shift" .cls t st3 with
        | none => .panicked st3
        | some st4 =>
          match auditStep audits "total-blocking-time" .tbt t st4 with
          | none => .panicked st4
          | some st5 => .success st5

/-- The body of one loop iteration of `fetchPSIData` after a successful
decode: structural checks on `lighthouseResult`, `categories`,
`performance` (comma-ok, failure retries), the score write, then the
audits block. -/
def processBody (st : Store) (t : target) (data : List (String × JVal)) : StepResult :=
  match asObj (mapIndex data "lighthouseResult") with
  | none => .retry st
  | some result =>
    match asObj (mapIndex result "categories") with
    | none => .retry st
    | some categories =>
      match asObj (mapIndex categories "performance") with
      | none => .retry st
      | some performance =>
        auditsBlock result t (setIfNum st t .score (mapIndex performance "score"))

/-- One whole loop iteration: `http.Get` error and decode error retry,
otherwise the decoded body is processed. -/
def stepAttempt (st : Store) (t : target) : Attempt → StepResult
  | .netErr => .retry st
  | .decodeErr => .retry st
  | .body data => processBody st t data

/-- Final outcome of a `fetchPSIData` run. -/
inductive Outcome where
  | success
  | panicked
  | exhausted
deriving DecidableEq

/-- Observable result of a `fetchPSIData` run: outcome, final gauge store,
the sequence of `time.Sleep` durations (seconds), and how many attempts
(`http.Get` calls) were made. -/
structure FetchResult where
  outcome : Outcome
  store : Store
  sleeps : List Nat
  attemptsUsed : Nat

/-- Record a backoff sleep in front of a later result's trace. -/
def prependSleep (delay : Nat) (r : FetchResult) : FetchResult :=
  { r with sleeps := delay :: r.sleeps }

/-- `maxRetries := 5`. -/
def maxRetries : Nat := 5

/-- `delay := 2 * time.Second`, in seconds. -/
def initialDelay : Nat := 2

/-- The retry loop of `fetchPSIData`: `fuel` iterations remain, `i`
attempts were already made, `delay` is the current backoff. A transient
failure sleeps `delay`, doubles it and continues; a panic aborts the run;
a processed body returns. -/
def fetchLoop (env : Nat → Attempt) (t : target) :
    Nat → Nat → Nat → Store → FetchResult
  | 0, i, _, st => ⟨.exhausted, st, [], i⟩
  | fuel + 1, i, delay, st =>
    match stepAttempt st t (env i) with
    | .retry st2 => prependSleep delay (fetchLoop env t fuel (i + 1) (delay * 2) st2)
    | .panicked st2 => ⟨.panicked, st2, [], i + 1⟩
    | .success st2 => ⟨.success, st2, [], i + 1⟩

/-- `fetchPSIData(apiKey, target)` with the transport abstracted into `env`. -/
def fetchPSIData (env : Nat → Attempt) (t : target) (st : Store) : FetchResult :=
  fetchLoop env t maxRetries 0 initialDelay st

/-- What the `/execute` handler `executePSI` did: either it responded
(with an HTTP status, whether `fetchPSIData` was invoked, and the gauge
store at response time), or the fetch panicked and no response was sent. -/
inductive HandlerResult where
  | respond (status : Nat) (didFetch : Bool) (st : Store)
  | panicked (st : Store)

/-- `executePSI`: missing `url` or `strategy` query parameter answers
HTTP 400 without fetching; otherwise `fetchPSIData` runs synchronously and
the JSON response is encoded afterwards (status 200). -/
def executePSI (env : Nat → Attempt) (urlQ strategyQ : String) (st : Store) :
    HandlerResult :=
  if urlQ = "" ∨ strategyQ = "" then .respond 400 false st
  else
    let r := fetchPSIData env ⟨urlQ, strategyQ⟩ st
    match r.outcome with
    | .panicked => .panicked r.store
    | _ => .respond 200 true r.store

/-- `strings.TrimSpace` restricted to ASCII whitespace (the only kind the
claims exercise). -/
def isSpaceChar (c : Char) : Bool :=
  c = ' ' || c = '\t' || c = '\n' || c = '\x0b' || c = '\x0c' || c = '\r'

/-- Go `strings.TrimSpace`. -/
def trimSpace (s : String) : String :=
  String.mk (((s.toList.dropWhile isSpaceChar).reverse.dropWhile isSpaceChar).reverse)

/-- `strategies := []string{"mobile", "desktop"}`. -/
def strategies : List String := ["mobile", "desktop"]

/-- `expandTargets`: trim each URL, skip blanks, pair the rest with each
strategy in order. -/
def expandTargets : List String → List target
  | [] => []
  | u :: rest =>
    let u2 := trimSpace u
    if u2 = "" then expandTargets rest
    else strategies.map (fun s => ⟨u2, s⟩) ++ expandTargets rest

/-- Decimal digit run for `strconv.Atoi`; `none` on empty or non-digit. -/
def parseDigits : List Char → Nat → Option Nat
  | [], acc => some acc
  | c :: rest, acc =>
    if c.isDigit then parseDigits rest (acc * 10 + (c.toNat - 48)) else none

/-- Go `strconv.Atoi`: optional sign followed by at least one digit.
(Go additionally errors on int64 overflow; every overflowing input is far
outside [0,59], so `parseMinutes` is unaffected by eliding that check.) -/
def atoi : String → Option Int
  | s =>
    match s.toList with
    | [] => none
    | '+' :: rest =>
      match rest with
      | [] => none
      | _ => (parseDigits rest 0).map Int.ofNat
    | '-' :: rest =>
      match rest with
      | [] => none
      | _ => (parseDigits rest 0).map (fun n => -(Int.ofNat n))
    | cs => (parseDigits cs 0).map Int.ofNat

/-- Worker for `splitComma`, accumulating the current field in reverse. -/
def splitCommaAux : List Char → List Char → List String
  | [], acc => [String.mk acc.reverse]
  | c :: rest, acc =>
    if c = ',' then String.mk acc.reverse :: splitCommaAux rest []
    else splitCommaAux rest (c :: acc)

/-- Go `strings.Split(s, ",")`. -/
def splitComma (s : String) : List String :=
  splitCommaAux s.toList []

/-- The accumulation loop of `parseMinutes`. -/
def parseMinutesLoop : List String → List Int
  | [] => []
  | p :: rest =>
    match atoi (trimSpace p) with
    | some val =>
      if 0 ≤ val ∧ val < 60 then val :: parseMinutesLoop rest
      else parseMinutesLoop rest
    | none => parseMinutesLoop rest

/-- `parseMinutes`: split on commas, keep entries that parse into [0,59]. -/
def parseMinutes (minArg : String) : List Int :=
  parseMinutesLoop (splitComma minArg)

/-- One tick of the scheduler goroutine in `main`: scan `fetchMinutes`; on
the first minute match run one full sweep (one fetch per target, in order)
and `break`. The returned list is the sequence of `fetchPSIData` calls the
tick performs. -/
def schedulerTick (fetchMinutes : List Int) (minute : Int)
    (targets : List target) : List target :=
  match fetchMinutes with
  | [] => []
  | m :: rest =>
    if minute = m then targets else schedulerTick rest minute targets

/-- Whether a step outcome is a transient (retryable) failure. -/
def StepResult.isRetry : StepResult → Bool
  | .retry _ => true
  | _ => false

/-- The sleep trace of `fuel` consecutive transient failures starting at
backoff `delay`: the delay doubles after each failed attempt. -/
def backoffList : Nat → Nat → List Nat
  | 0, _ => []
  | fuel + 1, delay => delay :: backoffList fuel (delay * 2)

/-- Response body with a numeric `performance.score` and no `audits` key. -/
def scoreOnlyBody (v : Int) : List (String × JVal) :=
  [("lighthouseResult", .obj
     [("categories", .obj [("performance", .obj [("score", .num v)])])])]

/-- Response body with the performance category present and an empty
`audits` map. -/
def emptyAuditsBody : List (String × JVal) :=
  [("lighthouseResult", .obj
     [("categories", .obj [("performance", .obj [])]),
      ("audits", .obj [])])]

/-- Response body with a numeric score and audits for first-contentful-paint,
largest-contentful-paint and total-blocking-time, but no
cumulative-layout-shift entry. -/
def missingClsBody : List (String × JVal) :=
  [("lighthouseResult", .obj
     [("categories", .obj [("performance", .obj [("score", .num 1)])]),
      ("audits", .obj
        [("first-contentful-paint", .obj [("numericValue", .num 100)]),
         ("largest-contentful-paint", .obj [("numericValue", .num 200)]),
         ("total-blocking-time", .obj [("numericValue", .num 50)])])])]

/-! ## Theorems -/

/-- Claim C5: `expandTargets` returns exactly one target per
(non-blank trimmed URL, strategy) pair in the cross product with
[mobile, desktop], preserving URL input order with strategy order mobile
then desktop, silently dropping entries blank after trimming; in
particular on `["https://a.com", " ", "https://b.com "]`. -/
theorem expandTargets_cross_product :
    (∀ urls : List String,
      expandTargets urls =
        ((urls.map trimSpace).filter (fun u => u ≠ "")).flatMap
          (fun u => [⟨u, "mobile"⟩, ⟨u, "desktop"⟩]))
    ∧ expandTargets ["https://a.com", " ", "https://b.com "] =
        [⟨"https://a.com", "mobile"⟩, ⟨"https://a.com", "desktop"⟩,
         ⟨"https://b.com", "mobile"⟩, ⟨"https://b.com", "desktop"⟩] := by
  constructor
  · intro urls
    induction urls with
    | nil => rfl
    | cons u rest ih =>
      by_cases h : trimSpace u = ""
      · simp [expandTargets, h, ih]
      · simp [expandTargets, h, ih, strategies]
  · decide

/-- Claim C6: `parseMinutes` keeps exactly the comma-separated entries
that parse (after trimming) as integers in [0,59] and discards the rest;
in particular `"0,30,70,-1, 15"` yields 0, 30, 15. -/
theorem parseMinutes_range_filter :
    (∀ s : String,
      parseMinutes s =
        (splitComma s).filterMap
          (fun p =>
            match atoi (trimSpace p) with
            | some v => if 0 ≤ v ∧ v < 60 then some v else none
            | none => none))
    ∧ parseMinutes "0,30,70,-1, 15" = [0, 30, 15] := by
  constructor
  · intro s
    show parseMinutesLoop (splitComma s) = _
    induction splitComma s with
    | nil => rfl
    | cons p rest ih =>
      cases h : atoi (trimSpace p) with
      | none => simp [parseMinutesLoop, List.filterMap_cons, h, ih]
      | some v =>
        by_cases hv : 0 ≤ v ∧ v < 60 <;>
          simp [parseMinutesLoop, List.filterMap_cons, h, hv, ih]
  · decide

/-- Claim C7: on one scheduler tick, a minute matching any configured
trigger minute runs exactly one full sweep over the targets in order (even
when the minute is listed twice), and a non-matching minute runs none; in
particular with minutes [0, 30] a tick at 30 sweeps once and at 31 not at
all. -/
theorem schedulerTick_minute_match :
    (∀ (fetchMinutes : List Int) (minute : Int) (targets : List target),
      schedulerTick fetchMinutes minute targets =
        if minute ∈ fetchMinutes then targets else [])
    ∧ schedulerTick [0, 30] 30 [⟨"https://a.com", "mobile"⟩] =
        [⟨"https://a.com", "mobile"⟩]
    ∧ schedulerTick [0, 30] 31 [⟨"https://a.com", "mobile"⟩] = [] := by
  refine ⟨?_, by decide, by decide⟩
  intro fetchMinutes minute targets
  induction fetchMinutes with
  | nil => simp [schedulerTick]
  | cons m rest ih =>
    by_cases h : minute = m
    · simp [schedulerTick, h]
    · simp [schedulerTick, h, ih]

/-- The audits block never asks for a retry: each branch succeeds or
panics. -/
theorem auditsBlock_ne_retry (result : List (String × JVal)) (t : target)
    (st1 st2 : Store) : auditsBlock result t st1 ≠ .retry st2 := by
  unfold auditsBlock
  cases hA : asObj (mapIndex result "audits") with
  | none => simp [hA]
  | some audits =>
    simp only [hA]
    cases h1 : auditStep audits "first-contentful-paint" Metric.fcp t st1 with
    | none => simp [h1]
    | some s2 =>
      simp only [h1]
      cases h2 : auditStep audits "largest-contentful-paint" Metric.lcp t s2 with
      | none => simp [h2]
      | some s3 =>
        simp only [h2]
        cases h3 : auditStep audits "cumulative-layout-shift" Metric.cls t s3 with
        | none => simp [h3]
        | some s4 =>
          simp only [h3]
          cases h4 : auditStep audits "total-blocking-time" Metric.tbt t s4 with
          | none => simp [h4]
          | some s5 => simp [h4]

/-- A transient failure of one attempt never changes the store: all three
structural-check failures and both error branches return it untouched. -/
theorem stepAttempt_retry_eq (st : Store) (t : target) (a : Attempt) (st2 : Store)
    (h : stepAttempt st t a = .retry st2) : st2 = st := by
  cases a with
  | netErr => cases h; rfl
  | decodeErr => cases h; rfl
  | body data =>
    simp only [stepAttempt] at h
    unfold processBody at h
    split at h
    · cases h; rfl
    · split at h
      · cases h; rfl
      · split at h
        · cases h; rfl
        · exact absurd h (auditsBlock_ne_retry _ _ _ _)

/-- A step whose outcome is flagged retryable equals `.retry` on the
unchanged store. -/
theorem isRetry_elim (st : Store) (t : target) (a : Attempt)
    (h : (stepAttempt st t a).isRetry = true) :
    stepAttempt st t a = .retry st := by
  cases h2 : stepAttempt st t a with
  | retry st2 => rw [stepAttempt_retry_eq st t a st2 h2]
  | panicked st2 => rw [h2] at h; simp [StepResult.isRetry] at h
  | success st2 => rw [h2] at h; simp [StepResult.isRetry] at h

/-- Unrolling `fetchLoop` over attempts that all fail transiently: it
exhausts the fuel, keeps the store, and sleeps the doubling backoff. -/
theorem fetchLoop_all_retry (env : Nat → Attempt) (t : target) :
    ∀ (fuel i delay : Nat) (st : Store),
      (∀ j, i ≤ j → j < i + fuel → ∀ st2 : Store,
          (stepAttempt st2 t (env j)).isRetry = true) →
      fetchLoop env t fuel i delay st =
        ⟨.exhausted, st, backoffList fuel delay, i + fuel⟩ := by
  intro fuel
  induction fuel with
  | zero => intro i delay st _; simp [fetchLoop, backoffList]
  | succ n ih =>
    intro i delay st h
    have h0 : stepAttempt st t (env i) = .retry st :=
      isRetry_elim st t (env i) (h i le_rfl (by omega) st)
    have := ih (i + 1) (delay * 2) st
      (fun j hj1 hj2 st2 => h j (by omega) (by omega) st2)
    rw [fetchLoop, h0]
    show prependSleep delay (fetchLoop env t n (i + 1) (delay * 2) st) =
      ⟨.exhausted, st, backoffList (n + 1) delay, i + (n + 1)⟩
    rw [this, backoffList]
    simp only [prependSleep]
    congr 1
    omega

/-- Evaluating a fetch run on a body holding only a numeric score: it
succeeds on the first attempt writing exactly the score gauge. -/
theorem fetch_scoreOnly (v : Int) (t : target) (st : Store) :
    fetchPSIData (fun _ => .body (scoreOnlyBody v)) t st =
      ⟨.success, st.set .score t.URL t.Strategy v, [], 1⟩ := rfl

/-- Claim C10: per-attempt atomicity — an attempt that fails transiently
(network error, decode error, or missing lighthouseResult / categories /
performance structure) writes no gauge value for any (metric, site,
strategy) key: the store is untouched on every such attempt. -/
theorem attempt_failure_writes_nothing :
    ∀ (st : Store) (t : target) (a : Attempt) (st2 : Store),
      stepAttempt st t a = .retry st2 →
      ∀ (m : Metric) (site strategy : String),
        st2 m site strategy = st m site strategy := by
  intro st t a st2 h m site strategy
  rw [stepAttempt_retry_eq st t a st2 h]

/-- Witness for C10 at a concrete failing attempt (body whose
`lighthouseResult` key is missing) over a non-empty store. -/
theorem attempt_failure_writes_nothing_witness :
    (Store.set emptyStore Metric.score "https://a.com" "mobile" 7)
        Metric.score "https://a.com" "mobile" =
      (Store.set emptyStore Metric.score "https://a.com" "mobile" 7)
        Metric.score "https://a.com" "mobile" :=
  attempt_failure_writes_nothing
    (Store.set emptyStore Metric.score "https://a.com" "mobile" 7)
    ⟨"https://a.com", "mobile"⟩
    (Attempt.body [("error", JVal.str "quota exceeded")])
    (Store.set emptyStore Metric.score "https://a.com" "mobile" 7)
    rfl Metric.score "https://a.com" "mobile"

/-- Claim C4: when every attempt fails transiently, `fetchPSIData` makes
exactly the 5 allowed attempts, sleeps the doubling backoff 2,4,8,16,32
seconds, abandons the target with a non-fatal (non-panicking) exhausted
outcome, and writes no metric value. -/
theorem fetch_exhausts_with_backoff :
    ∀ (env : Nat → Attempt) (t : target) (st : Store),
      (∀ i, i < maxRetries → ∀ st2 : Store,
          (stepAttempt st2 t (env i)).isRetry = true) →
      fetchPSIData env t st =
        { outcome := .exhausted, store := st,
          sleeps := [2, 4, 8, 16, 32], attemptsUsed := 5 } := by
  intro env t st h
  rw [show fetchPSIData env t st = fetchLoop env t 5 0 2 st from rfl,
    fetchLoop_all_retry env t 5 0 2 st (fun j hj1 hj2 st2 => h j hj2 st2)]
  rfl

/-- Witness for C4: five consecutive network errors. -/
theorem fetch_exhausts_with_backoff_witness :
    fetchPSIData (fun _ => Attempt.netErr) ⟨"https://a.com", "mobile"⟩ emptyStore =
      { outcome := .exhausted, store := emptyStore,
        sleeps := [2, 4, 8, 16, 32], attemptsUsed := 5 } :=
  fetch_exhausts_with_backoff (fun _ => Attempt.netErr)
    ⟨"https://a.com", "mobile"⟩ emptyStore (fun _ _ _ => rfl)

/-- Counterexample to claim C3: a response with
`lighthouseResult.categories.performance` present but `lighthouseResult.audits`
missing is NOT treated as a retryable failure — the very first attempt
succeeds, no backoff sleep happens, and the score gauge is written. -/
theorem missing_audits_counts_as_success :
    (fetchPSIData (fun _ => .body (scoreOnlyBody 1)) ⟨"https://a.com", "mobile"⟩
        emptyStore).outcome = .success
    ∧ (fetchPSIData (fun _ => .body (scoreOnlyBody 1)) ⟨"https://a.com", "mobile"⟩
        emptyStore).sleeps = []
    ∧ (fetchPSIData (fun _ => .body (scoreOnlyBody 1)) ⟨"https://a.com", "mobile"⟩
        emptyStore).attemptsUsed = 1
    ∧ (fetchPSIData (fun _ => .body (scoreOnlyBody 1)) ⟨"https://a.com", "mobile"⟩
        emptyStore).store Metric.score "https://a.com" "mobile" = some 1 :=
  ⟨rfl, rfl, rfl, rfl⟩

/-- Claim C3 (amended): inside `fetchPSIData`, a response missing any of
`lighthouseResult`, `categories` or `performance` is the retryable case —
the attempt writes no metrics (store passed on unchanged), the current
backoff delay is slept and doubled, and the loop moves to the next
attempt; a response that has the performance category but is missing
`lighthouseResult.audits` is instead counted as a successful fetch that
writes only the score (when numeric). -/
theorem structural_retry_amended :
    (∀ (env : Nat → Attempt) (t : target) (fuel i delay : Nat) (st : Store)
        (data : List (String × JVal)),
      env i = .body data →
      processBody st t data = .retry st →
      fetchLoop env t (fuel + 1) i delay st =
        prependSleep delay (fetchLoop env t fuel (i + 1) (delay * 2) st))
    ∧ (∀ (st : Store) (t : target) (data : List (String × JVal)),
        asObj (mapIndex data "lighthouseResult") = none →
        processBody st t data = .retry st)
    ∧ (∀ (st : Store) (t : target) (data result : List (String × JVal)),
        asObj (mapIndex data "lighthouseResult") = some result →
        asObj (mapIndex result "categories") = none →
        processBody st t data = .retry st)
    ∧ (∀ (st : Store) (t : target) (data result categories : List (String × JVal)),
        asObj (mapIndex data "lighthouseResult") = some result →
        asObj (mapIndex result "categories") = some categories →
        asObj (mapIndex categories "performance") = none →
        processBody st t data = .retry st)
    ∧ (∀ (st : Store) (t : target)
        (data result categories performance : List (String × JVal)),
        asObj (mapIndex data "lighthouseResult") = some result →
        asObj (mapIndex result "categories") = some categories →
        asObj (mapIndex categories "performance") = some performance →
        asObj (mapIndex result "audits") = none →
        processBody st t data =
          .success (setIfNum st t .score (mapIndex performance "score"))) := by
  refine ⟨?_, ?_, ?_, ?_, ?_⟩
  · intro env t fuel i delay st data h1 h2
    rw [fetchLoop]
    have hs : stepAttempt st t (env i) = .retry st := by
      rw [h1]; exact h2
    rw [hs]
  · intro st t data h1
    unfold processBody
    simp only [h1]
  · intro st t data result h1 h2
    unfold processBody
    simp only [h1, h2]
  · intro st t data result categories h1 h2 h3
    unfold processBody
    simp only [h1, h2, h3]
  · intro st t data result categories performance h1 h2 h3 h4
    unfold processBody auditsBlock
    simp only [h1, h2, h3, h4]

/-- Witness for the amended C3, instantiating each conjunct at a concrete
response: an empty body, bodies cut off at each structural level, and a
score-only body with no audits key. -/
theorem structural_retry_amended_witness :
    fetchLoop (fun _ => .body []) ⟨"https://a.com", "mobile"⟩ 1 0 2 emptyStore =
      prependSleep 2
        (fetchLoop (fun _ => .body []) ⟨"https://a.com", "mobile"⟩ 0 1 4 emptyStore)
    ∧ processBody emptyStore ⟨"https://a.com", "mobile"⟩ [] = .retry emptyStore
    ∧ processBody emptyStore ⟨"https://a.com", "mobile"⟩
        [("lighthouseResult", .obj [])] = .retry emptyStore
    ∧ processBody emptyStore ⟨"https://a.com", "mobile"⟩
        [("lighthouseResult", .obj [("categories", .obj [])])] = .retry emptyStore
    ∧ processBody emptyStore ⟨"https://a.com", "mobile"⟩ (scoreOnlyBody 1) =
        .success (setIfNum emptyStore ⟨"https://a.com", "mobile"⟩ .score
          (mapIndex [("score", JVal.num 1)] "score")) :=
  ⟨structural_retry_amended.1 (fun _ => .body []) ⟨"https://a.com", "mobile"⟩
      0 0 2 emptyStore [] rfl rfl,
   structural_retry_amended.2.1 emptyStore ⟨"https://a.com", "mobile"⟩ [] rfl,
   structural_retry_amended.2.2.1 emptyStore ⟨"https://a.com", "mobile"⟩
      [("lighthouseResult", .obj [])] [] rfl rfl,
   structural_retry_amended.2.2.2.1 emptyStore ⟨"https://a.com", "mobile"⟩
      [("lighthouseResult", .obj [("categories", .obj [])])] [("categories", JVal.obj [])]
      [] rfl rfl rfl,
   structural_retry_amended.2.2.2.2 emptyStore ⟨"https://a.com", "mobile"⟩
      (scoreOnlyBody 1)
      [("categories", JVal.obj [("performance", JVal.obj [("score", JVal.num 1)])])]
      [("performance", JVal.obj [("score", JVal.num 1)])]
      [("score", JVal.num 1)] rfl rfl rfl rfl⟩

/-- Claim C1 evaluated on the code: a response whose body contains
`lighthouseResult.categories.performance` and an EMPTY audits map makes
the very first attempt panic (the single-value assertion
`audits["first-contentful-paint"].(map[string]interface{})` runs on a nil
interface), aborting the run — it does not complete, retry or sleep. -/
theorem empty_audits_map_panics :
    (fetchPSIData (fun _ => .body emptyAuditsBody) ⟨"https://a.com", "mobile"⟩
        emptyStore).outcome = .panicked
    ∧ (fetchPSIData (fun _ => .body emptyAuditsBody) ⟨"https://a.com", "mobile"⟩
        emptyStore).sleeps = []
    ∧ (fetchPSIData (fun _ => .body emptyAuditsBody) ⟨"https://a.com", "mobile"⟩
        emptyStore).attemptsUsed = 1 :=
  ⟨rfl, rfl, rfl⟩

/-- Claim C2 evaluated on the code: with a valid numeric score and audits
for fcp, lcp and tbt but no cumulative-layout-shift entry, the fetch
panics after writing score, fcp and lcp; tbt is never written and cls is
left at its prior (absent) value — it does not write the claimed four
metrics. -/
theorem missing_cls_panics_before_tbt :
    (fetchPSIData (fun _ => .body missingClsBody) ⟨"https://a.com", "mobile"⟩
        emptyStore).outcome = .panicked
    ∧ (fetchPSIData (fun _ => .body missingClsBody) ⟨"https://a.com", "mobile"⟩
        emptyStore).store Metric.score "https://a.com" "mobile" = some 1
    ∧ (fetchPSIData (fun _ => .body missingClsBody) ⟨"https://a.com", "mobile"⟩
        emptyStore).store Metric.fcp "https://a.com" "mobile" = some 100
    ∧ (fetchPSIData (fun _ => .body missingClsBody) ⟨"https://a.com", "mobile"⟩
        emptyStore).store Metric.lcp "https://a.com" "mobile" = some 200
    ∧ (fetchPSIData (fun _ => .body missingClsBody) ⟨"https://a.com", "mobile"⟩
        emptyStore).store Metric.tbt "https://a.com" "mobile" = none
    ∧ (fetchPSIData (fun _ => .body missingClsBody) ⟨"https://a.com", "mobile"⟩
        emptyStore).store Metric.cls "https://a.com" "mobile" = none := by
  refine ⟨rfl, ?_, ?_, ?_, ?_, ?_⟩ <;> decide

/-- Claim C8: `executePSI` answers HTTP 400 without invoking the fetcher
or touching the store when the `url` or `strategy` query parameter is
empty, and with both present it runs `fetchPSIData` synchronously,
responding 200 with the store as the completed fetch left it. -/
theorem executePSI_param_check :
    ∀ (env : Nat → Attempt) (urlQ strategyQ : String) (st : Store),
      ((urlQ = "" ∨ strategyQ = "") →
        executePSI env urlQ strategyQ st = .respond 400 false st)
      ∧ (urlQ ≠ "" → strategyQ ≠ "" →
          (fetchPSIData env ⟨urlQ, strategyQ⟩ st).outcome ≠ .panicked →
          executePSI env urlQ strategyQ st =
            .respond 200 true (fetchPSIData env ⟨urlQ, strategyQ⟩ st).store) := by
  intro env urlQ strategyQ st
  constructor
  · intro h
    simp only [executePSI, if_pos h]
  · intro h1 h2 h3
    have hc : ¬(urlQ = "" ∨ strategyQ = "") := by
      intro h
      cases h with
      | inl h => exact h1 h
      | inr h => exact h2 h
    cases ho : (fetchPSIData env ⟨urlQ, strategyQ⟩ st).outcome with
    | panicked => exact absurd ho h3
    | success => simp [executePSI, if_neg hc, ho]
    | exhausted => simp [executePSI, if_neg hc, ho]

/-- Witness for C8: a request with an empty `url` answers 400 on an
untouched store; a request with both parameters present (whose fetch ends
without panicking) answers 200 with the post-fetch store. -/
theorem executePSI_param_check_witness :
    executePSI (fun _ => Attempt.netErr) "" "mobile" emptyStore =
      .respond 400 false emptyStore
    ∧ executePSI (fun _ => Attempt.netErr) "https://a.com" "mobile" emptyStore =
        .respond 200 true
          (fetchPSIData (fun _ => Attempt.netErr) ⟨"https://a.com", "mobile"⟩
            emptyStore).store :=
  ⟨(executePSI_param_check (fun _ => Attempt.netErr) "" "mobile" emptyStore).1
      (Or.inl rfl),
   (executePSI_param_check (fun _ => Attempt.netErr) "https://a.com" "mobile"
      emptyStore).2 (by decide) (by decide) (by decide)⟩

/-- Claim C9: last-write-wins idempotence — two successive successful
fetch runs for the same (site, strategy) with scores v1 then v2 leave the
store holding v2 for that pair's score gauge, with every other
(metric, site, strategy) key exactly as before the two runs. -/
theorem fetch_last_write_wins :
    ∀ (site strategy : String) (st : Store) (v1 v2 : Int),
      (fetchPSIData (fun _ => .body (scoreOnlyBody v1)) ⟨site, strategy⟩ st).outcome
          = .success
      ∧ (fetchPSIData (fun _ => .body (scoreOnlyBody v2)) ⟨site, strategy⟩
          (fetchPSIData (fun _ => .body (scoreOnlyBody v1)) ⟨site, strategy⟩
            st).store).outcome = .success
      ∧ (fetchPSIData (fun _ => .body (scoreOnlyBody v2)) ⟨site, strategy⟩
          (fetchPSIData (fun _ => .body (scoreOnlyBody v1)) ⟨site, strategy⟩
            st).store).store Metric.score site strategy = some v2
      ∧ ∀ (m : Metric) (s2 g2 : String),
          ¬(m = Metric.score ∧ s2 = site ∧ g2 = strategy) →
          (fetchPSIData (fun _ => .body (scoreOnlyBody v2)) ⟨site, strategy⟩
            (fetchPSIData (fun _ => .body (scoreOnlyBody v1)) ⟨site, strategy⟩
              st).store).store m s2 g2 = st m s2 g2 := by
  intro site strategy st v1 v2
  refine ⟨rfl, rfl, ?_, ?_⟩
  · show Store.set (Store.set st .score site strategy v1) .score site strategy v2
        Metric.score site strategy = some v2
    simp [Store.set]
  · intro m s2 g2 hm
    show Store.set (Store.set st .score site strategy v1) .score site strategy v2
        m s2 g2 = st m s2 g2
    simp [Store.set, hm]

/-- Witness for C9 at site https://a.com, mobile, scores 1 then 2, over
the empty store, checking the score key and the untouched fcp key. -/
theorem fetch_last_write_wins_witness :
    (fetchPSIData (fun _ => .body (scoreOnlyBody 2)) ⟨"https://a.com", "mobile"⟩
      (fetchPSIData (fun _ => .body (scoreOnlyBody 1)) ⟨"https://a.com", "mobile"⟩
        emptyStore).store).store Metric.score "https://a.com" "mobile" = some 2
    ∧ (fetchPSIData (fun _ => .body (scoreOnlyBody 2)) ⟨"https://a.com", "mobile"⟩
      (fetchPSIData (fun _ => .body (scoreOnlyBody 1)) ⟨"https://a.com", "mobile"⟩
        emptyStore).store).store Metric.fcp "https://a.com" "mobile" =
        emptyStore Metric.fcp "https://a.com" "mobile" :=
  ⟨(fetch_last_write_wins "https://a.com" "mobile" emptyStore 1 2).2.2.1,
   (fetch_last_write_wins "https://a.com" "mobile" emptyStore 1 2).2.2.2
      Metric.fcp "https://a.com" "mobile" (by decide)⟩
